import Mathlib

/-!
Verification of the goal-funding projection and simulation engine of the
AssetManagement repository.

The development shallowly embeds the arithmetic core of

* `backend/app/services/strategy_service.py`
  (`calculate_goal_progress`, `calculate_overall_goal_probability`),
* `src/strategy/simulator.py`
  (`SimulationEngine._monte_carlo`, `_simulate_for_years`, `_evaluate_goals`),
* `src/strategy/auditor.py`
  (`PurchaseAuditor.audit_purchase`, `_calculate_trade_offs`, `_make_decision`)

over exact rational arithmetic (`ℚ` in place of Python floats / `Decimal`),
with the pseudo-random stream of standard-normal draws made an explicit
input (see `Rng` below).  Database access in the sources merely fetches the
goal records; the embedded functions take those records as arguments.
-/

namespace AssetMgmt

/-! ## `backend/app/services/strategy_service.py`

`calculate_goal_progress(target_amount, current_funded, monthly_contribution,
months_remaining, annual_return)`.  `months_remaining` is a Python `int`
(possibly negative); exponentiation only happens in the `months_remaining > 0`
branch, where `months_remaining.toNat` coincides with it. -/

structure GoalProgress where
  progress_pct : ℚ
  projected_amount : ℚ
  shortfall : ℚ
  probability : ℚ
  deriving DecidableEq

def calculate_goal_progress (target_amount current_funded monthly_contribution : ℚ)
    (months_remaining : ℤ) (annual_return : ℚ) : GoalProgress :=
  if months_remaining ≤ 0 then
    -- Goal date passed
    let progress : ℚ := if 0 < target_amount then current_funded / target_amount * 100 else 0
    { progress_pct := min progress 100
      projected_amount := current_funded
      shortfall := max 0 (target_amount - current_funded)
      probability := min 100 progress }
  else
    let monthly_rate : ℚ := annual_return / 100 / 12
    let n : ℕ := months_remaining.toNat
    let fv_contributions : ℚ :=
      if 0 < monthly_rate then
        -- FV of annuity formula
        monthly_contribution * (((1 + monthly_rate) ^ n - 1) / monthly_rate)
      else
        monthly_contribution * n
    let fv_current : ℚ := current_funded * (1 + monthly_rate) ^ n
    let projected_total : ℚ := fv_current + fv_contributions
    let progress_pct : ℚ :=
      if 0 < target_amount then projected_total / target_amount * 100 else 0
    { progress_pct := min progress_pct 100
      projected_amount := projected_total
      shortfall := max 0 (target_amount - projected_total)
      probability := min 100 progress_pct }

/-- The fields of one entry of `events_with_progress` that
`calculate_overall_goal_probability` reads. -/
structure GoalEntry where
  probability : ℚ
  target_amount : ℚ
  projected_amount : ℚ
  deriving DecidableEq

/-- Python's `round(x, 1)` rounds half to even; integer part of that rounding. -/
def roundHalfEven (x : ℚ) : ℤ :=
  if x - ⌊x⌋ < 1 / 2 then ⌊x⌋
  else if 1 / 2 < x - ⌊x⌋ then ⌊x⌋ + 1
  else if ⌊x⌋ % 2 = 0 then ⌊x⌋ else ⌊x⌋ + 1

/-- `round(x, 1)` of the source, over exact rationals. -/
def round1 (x : ℚ) : ℚ := (roundHalfEven (x * 10) : ℚ) / 10

structure OverallResult where
  overall_probability : ℚ
  total_goals : ℕ
  total_target : ℚ
  total_projected : ℚ
  deriving DecidableEq

def calculate_overall_goal_probability (events : List GoalEntry) : OverallResult :=
  if events.isEmpty then
    { overall_probability := 100, total_goals := 0, total_target := 0, total_projected := 0 }
  else
    let total_target := (events.map (·.target_amount)).sum
    let total_projected := (events.map (·.projected_amount)).sum
    -- Weighted average probability based on target amounts
    let weighted_prob : ℚ :=
      if 0 < total_target then
        (events.map (fun e => e.probability * (e.target_amount / total_target))).sum
      else 0
    { overall_probability := round1 weighted_prob
      total_goals := events.length
      total_target := total_target
      total_projected := total_projected }

/-! ## `src/strategy/simulator.py`

The simulation engine draws `np.random.normal(mu, sigma)` from numpy's global
generator.  The embedding makes the generator state explicit: `Rng` carries the
infinite stream of standard-normal draws (an arbitrary `ℕ → ℚ`) and the current
position; `np.random.normal(mu, sigma)` consumes one draw `z` and returns
`mu + sigma * z`.  `np.random.seed(42)` resets the state to position 0 of the
fixed stream that seed 42 determines; that stream is a parameter
(`seed42stream`) of the embedding since its numeric values are outside the
model.  The source's monthly volatility is `volatility / np.sqrt(12)`; `√12` is
irrational, so the embedding passes the divisor `sqrt12` as a parameter. -/

structure SimulationParams where
  expected_return : ℚ := 5 / 100
  volatility : ℚ := 15 / 100
  inflation_rate : ℚ := 2 / 100
  num_simulations : ℕ := 1000
  time_horizon_years : ℕ := 30
  monthly_contribution : ℚ := 50000
  contribution_growth_rate : ℚ := 2 / 100

structure Rng where
  stream : ℕ → ℚ
  pos : ℕ

/-- `np.random.normal(mu, sigma)`: consume the next standard-normal draw. -/
def normalDraw (mu sigma : ℚ) (g : Rng) : ℚ × Rng :=
  (mu + sigma * g.stream g.pos, ⟨g.stream, g.pos + 1⟩)

/-- One month of the inner loop shared verbatim by `_monte_carlo` (lines
144–154) and `_simulate_for_years` (lines 307–315): draw a return, grow the
value, add the contribution, step the contribution up after every 12th month. -/
def simMonth (monthlyRet monthlyVol growth : ℚ) (st : ℚ × ℚ × Rng) (month : ℕ) :
    ℚ × ℚ × Rng :=
  let value := st.1
  let contrib := st.2.1
  let (random_return, g) := normalDraw monthlyRet monthlyVol st.2.2
  let value := value * (1 + random_return) + contrib
  let contrib := if 0 < month ∧ month % 12 = 0 then contrib * (1 + growth) else contrib
  (value, contrib, g)

/-- One sample path: `for month in range(n_months): ...`, returning the nominal
terminal value and the advanced generator. -/
def simPath (monthlyRet monthlyVol growth : ℚ) (nMonths : ℕ) (initial contrib0 : ℚ)
    (g : Rng) : ℚ × Rng :=
  let st := (List.range nMonths).foldl (simMonth monthlyRet monthlyVol growth)
    (initial, contrib0, g)
  (st.1, st.2.2)

/-- `for _ in range(n_sims)` of `_simulate_for_years`: run the paths in order,
threading the generator, collecting the nominal terminal values. -/
def runPaths (monthlyRet monthlyVol growth : ℚ) (nMonths : ℕ) (initial contrib0 : ℚ) :
    ℕ → Rng → List ℚ × Rng
  | 0, g => ([], g)
  | nSims + 1, g =>
    let vg := simPath monthlyRet monthlyVol growth nMonths initial contrib0 g
    let rest := runPaths monthlyRet monthlyVol growth nMonths initial contrib0 nSims vg.2
    (vg.1 :: rest.1, rest.2)

/-- `for _ in range(n_sims)` of `_monte_carlo`: same paths, but each terminal
value is deflated by the inflation factor before being appended. -/
def mcPaths (monthlyRet monthlyVol growth inflationFactor : ℚ) (nMonths : ℕ)
    (initial contrib0 : ℚ) : ℕ → Rng → List ℚ × Rng
  | 0, g => ([], g)
  | nSims + 1, g =>
    let vg := simPath monthlyRet monthlyVol growth nMonths initial contrib0 g
    let rest := mcPaths monthlyRet monthlyVol growth inflationFactor nMonths initial
      contrib0 nSims vg.2
    (vg.1 / inflationFactor :: rest.1, rest.2)

/-- `SimulationEngine._simulate_for_years(initial, params, years)`.  It does not
seed the generator: it consumes the ambient stream.  No deflation is applied. -/
def simulate_for_years (sqrt12 : ℚ) (initial : ℚ) (p : SimulationParams) (years : ℕ)
    (g : Rng) : List ℚ × Rng :=
  runPaths (p.expected_return / 12) (p.volatility / sqrt12) p.contribution_growth_rate
    (years * 12) initial p.monthly_contribution p.num_simulations g

/-- `SimulationEngine._monte_carlo(initial, params)`.  The first statement is
`np.random.seed(42)` — a hardcoded constant — so the incoming generator state is
discarded and replaced by position 0 of the seed-42 stream.  (The source also
computes a `contrib_growth` monthly rate on line 136 that it never uses; the
annual step-up on line 154 uses `params.contribution_growth_rate` directly.) -/
def monte_carlo (seed42stream : ℕ → ℚ) (sqrt12 : ℚ) (initial : ℚ)
    (p : SimulationParams) (_g : Rng) : List ℚ × Rng :=
  let g : Rng := ⟨seed42stream, 0⟩
  mcPaths (p.expected_return / 12) (p.volatility / sqrt12) p.contribution_growth_rate
    ((1 + p.inflation_rate) ^ p.time_horizon_years) (p.time_horizon_years * 12)
    initial p.monthly_contribution p.num_simulations g

/-! ### Goal evaluation (`_evaluate_goals`) -/

/-- Access into the sorted data with the index clipped to the valid range, as
numpy clips the floor/ceil indices of the interpolation. -/
def clampedGet (s : List ℚ) (i : ℕ) : ℚ :=
  s.getD (min i (s.length - 1)) 0

/-- numpy's linear interpolation at fractional index `h`:
`s[⌊h⌋] + (h − ⌊h⌋) * (s[⌊h⌋ + 1] − s[⌊h⌋])`, indices clipped. -/
def pInterp (s : List ℚ) (h : ℚ) : ℚ :=
  clampedGet s (⌊h⌋).toNat
    + (h - (⌊h⌋ : ℚ)) * (clampedGet s ((⌊h⌋).toNat + 1) - clampedGet s (⌊h⌋).toNat)

/-- `np.percentile(l, q)` with the default linear interpolation: interpolate
the sorted data at fractional index `h = (len − 1) * q / 100`.  `np.median` is
the `q = 50` case. -/
def npPercentile (l : List ℚ) (q : ℚ) : ℚ :=
  let s := l.mergeSort (fun a b => a ≤ b)
  pInterp s (((s.length : ℚ) - 1) * q / 100)

/-- `successes = sum(1 for v in goal_values if v >= target)`;
`probability = successes / len(goal_values) * 100`. -/
def successProbability (values : List ℚ) (target : ℚ) : ℚ :=
  ((values.countP (fun v => target ≤ v)) : ℚ) / (values.length : ℚ) * 100

structure GoalStats where
  success_probability : ℚ
  median_outcome : ℚ
  percentile_10 : ℚ
  percentile_90 : ℚ
  deriving DecidableEq

/-- Lines 249–258 of `_evaluate_goals`: probability, median and percentiles of
the simulated terminal values of one goal. -/
def evalStats (values : List ℚ) (target : ℚ) : GoalStats :=
  { success_probability := successProbability values target
    median_outcome := npPercentile values 50
    percentile_10 := npPercentile values 10
    percentile_90 := npPercentile values 90 }

/-- The per-goal body of `_evaluate_goals` for one goal, taking
`years_to_goal = max(0, (target_date − today).days / 365)` as a rational.
`int(years_to_goal)` truncates toward zero, which on the nonnegative branch is
the floor. -/
def evaluate_goal (sqrt12 : ℚ) (initial target : ℚ) (p : SimulationParams)
    (years_to_goal : ℚ) (g : Rng) : GoalStats × Rng :=
  if years_to_goal ≤ 0 then
    -- Goal is past due
    ({ success_probability := 0, median_outcome := 0, percentile_10 := 0,
       percentile_90 := 0 }, g)
  else
    let vg := simulate_for_years sqrt12 initial p (⌊years_to_goal⌋).toNat g
    (evalStats vg.1 target, vg.2)

/-- Lines 102–106 of `run_simulation`: the overall success rate is the plain
(unweighted) mean of the per-goal success probabilities, `100` if there are no
goal results. -/
def overall_success_rate (probs : List ℚ) : ℚ :=
  if probs.isEmpty then 100 else probs.sum / (probs.length : ℚ)

/-! ## `src/strategy/auditor.py` -/

inductive AuditDecision
  | GO
  | WAIT
  | STOP
  deriving DecidableEq

def RECOGNITION_THRESHOLD : ℚ := 30000

/-- `Decimal.quantize(Decimal('0.01'), ROUND_HALF_UP)`: round to two decimal
places, ties away from zero. -/
def quantize2HalfUp (x : ℚ) : ℚ :=
  if 0 ≤ x then (⌊x * 100 + 1 / 2⌋ : ℚ) / 100 else -((⌊-x * 100 + 1 / 2⌋ : ℚ) / 100)

/-- `_calculate_trade_offs(price)` restricted to the `probability_change`
fields, which are all `_make_decision` reads.  Goals with `target <= 0` are
skipped; a trade-off is recorded only when `prob_reduction > 1`. -/
def trade_off_changes (price : ℚ) (goalTargets : List ℚ) : List ℚ :=
  ((goalTargets.filter (fun target => 0 < target)).map
    (fun target => -(min (price / target * 100 * (1 / 2)) 20))).filter
    (fun change => change < -1)

/-- `_make_decision(price, daily_cost, runway_impact, trade_offs, new_runway)`
(the `runway_impact` argument is unread).  `severe_impacts` is nonempty iff
some recorded `probability_change < -10`. -/
def make_decision (price daily_cost : ℚ) (changes : List ℚ) (new_runway : ℚ) :
    AuditDecision :=
  if price < RECOGNITION_THRESHOLD then .GO
  else if new_runway < 3 then .STOP
  else if new_runway < 6 then .WAIT
  else if changes.any (fun c => c < -10) then .WAIT
  else if 500 < daily_cost then .WAIT
  else .GO

/-- The decision computed by `audit_purchase`: costs and runway exactly as in
lines 108–119 (`lifespan_days = int(lifespan_years * 365)`; the daily cost is
quantized to 0.01 half-up; `new_runway` falls back to 999 when
`monthly_expenses <= 0`), then `_make_decision`.  (For `lifespan_days = 0` the
source raises; `ℚ` division by zero yields 0 — theorems below stay on inputs
with `lifespan_days > 0`.) -/
def audit_decision (price lifespan_years resale_value liquid_assets
    monthly_expenses : ℚ) (goalTargets : List ℚ) : AuditDecision :=
  let lifespan_days : ℕ := (⌊lifespan_years * 365⌋).toNat
  let true_cost := price - resale_value
  let daily_cost := quantize2HalfUp (true_cost / (lifespan_days : ℚ))
  let new_liquid := liquid_assets - price
  let new_runway : ℚ := if 0 < monthly_expenses then new_liquid / monthly_expenses else 999
  make_decision price daily_cost (trade_off_changes price goalTargets) new_runway

/-- Modelled from the spec: the §4.5 decision chain with rule 5 comparing the
exact daily amortized cost `(price − resale_value)/(lifespan_years*365)` — the
chain the claim states, written from the spec's words for comparison with
`audit_decision`. -/
def audit_spec_literal (price lifespan_years resale_value liquid_assets
    monthly_expenses : ℚ) (goalTargets : List ℚ) : AuditDecision :=
  let runway := (liquid_assets - price) / monthly_expenses
  if price < 30000 then .GO
  else if runway < 3 then .STOP
  else if runway < 6 then .WAIT
  else if goalTargets.any (fun t => decide (10 < min (price / t * 100 * (1 / 2)) 20)) then
    .WAIT
  else if 500 < (price - resale_value) / (lifespan_years * 365) then .WAIT
  else .GO

/-- Modelled from the spec: the same §4.5 chain, with rule 5 amended to compare
the code's daily cost — `(price − resale_value) / int(lifespan_years*365)`,
rounded half-up to two decimals. -/
def audit_spec_amended (price lifespan_years resale_value liquid_assets
    monthly_expenses : ℚ) (goalTargets : List ℚ) : AuditDecision :=
  let runway := (liquid_assets - price) / monthly_expenses
  let daily := quantize2HalfUp ((price - resale_value) / (((⌊lifespan_years * 365⌋).toNat : ℕ) : ℚ))
  if price < 30000 then .GO
  else if runway < 3 then .STOP
  else if runway < 6 then .WAIT
  else if goalTargets.any (fun t => decide (10 < min (price / t * 100 * (1 / 2)) 20)) then
    .WAIT
  else if 500 < daily then .WAIT
  else .GO

/-! ## Theorems -/

/-- C6: for `months_remaining ≤ 0` the projection returns
`progress_pct = min(100, funded/target*100)` when `target > 0` and `0` when
`target = 0`, `projected_amount = funded`, `probability = min(100, progress)`,
`shortfall = max(0, target − funded)`, independently of `monthly_contribution`
and `annual_return`. -/
theorem c6_zero_horizon (target funded c r c' r' : ℚ) (n : ℤ) (hn : n ≤ 0) :
    (0 < target →
      (calculate_goal_progress target funded c n r).progress_pct
        = min 100 (funded / target * 100)) ∧
    (target = 0 → (calculate_goal_progress target funded c n r).progress_pct = 0) ∧
    (calculate_goal_progress target funded c n r).projected_amount = funded ∧
    (calculate_goal_progress target funded c n r).probability
      = min 100 (if 0 < target then funded / target * 100 else 0) ∧
    (calculate_goal_progress target funded c n r).shortfall = max 0 (target - funded) ∧
    calculate_goal_progress target funded c n r
      = calculate_goal_progress target funded c' n r' := by
  simp only [calculate_goal_progress, if_pos hn]
  refine ⟨fun ht => ?_, fun ht => ?_, ?_, ?_, ?_, ?_⟩ <;>
    first
      | trivial
      | simp [*, min_comm]

theorem c6_zero_horizon_witness :
    (calculate_goal_progress 200 50 7 (-1) 5).projected_amount = 50 ∧
    calculate_goal_progress 200 50 7 (-1) 5 = calculate_goal_progress 200 50 9 (-1) 3 :=
  ⟨(c6_zero_horizon 200 50 7 5 9 3 (-1) (by decide)).2.2.1,
   (c6_zero_horizon 200 50 7 5 9 3 (-1) (by decide)).2.2.2.2.2⟩

/-- C3 counterexample: at `annual_return = −12` (monthly rate `−1/100 ≠ 0`),
`months_remaining = 2`, `contribution = 100`, `funded = 0`, the code returns
`projected_amount = 200` (the linear branch), not the ordinary-annuity value
`0*(1+r)^2 + 100*(((1+r)^2 − 1)/r) = 199` the claim requires for every
`r ≠ 0`. -/
theorem c3_counterexample :
    (calculate_goal_progress 1000 0 100 2 (-12)).projected_amount = 200 ∧
    ¬ ((calculate_goal_progress 1000 0 100 2 (-12)).projected_amount
        = 0 * (1 + (-12 : ℚ) / 100 / 12) ^ (2 : ℕ)
          + 100 * (((1 + (-12 : ℚ) / 100 / 12) ^ (2 : ℕ) - 1) / ((-12 : ℚ) / 100 / 12))) := by
  have h2 : (((2 : ℤ).toNat : ℕ) : ℚ) = 2 := by simp
  constructor <;> norm_num [calculate_goal_progress, h2]

/-- C3 amended: for `months_remaining = n ≥ 1` and monthly rate
`r = annual_return/100/12`, the projected amount equals `funded*(1+r)^n` plus
`contribution*(((1+r)^n − 1)/r)` when `r > 0`, and plus `contribution*n` when
`r ≤ 0` (the linear branch covers both the zero and the negative rate). -/
theorem c3_annuity_projection (target funded contribution r : ℚ) (n : ℤ) (hn : 1 ≤ n) :
    (calculate_goal_progress target funded contribution n r).projected_amount
      = funded * (1 + r / 100 / 12) ^ n.toNat
        + (if 0 < r / 100 / 12 then
            contribution * (((1 + r / 100 / 12) ^ n.toNat - 1) / (r / 100 / 12))
          else contribution * (n.toNat : ℚ)) := by
  have h : ¬ n ≤ 0 := by omega
  simp only [calculate_goal_progress, if_neg h]

theorem c3_annuity_projection_witness :
    (calculate_goal_progress 1000 100 10 2 12).projected_amount
      = 100 * (1 + (12 : ℚ) / 100 / 12) ^ (2 : ℤ).toNat
        + (if 0 < (12 : ℚ) / 100 / 12 then
            10 * (((1 + (12 : ℚ) / 100 / 12) ^ (2 : ℤ).toNat - 1) / ((12 : ℚ) / 100 / 12))
          else 10 * (((2 : ℤ).toNat : ℚ))) :=
  c3_annuity_projection 1000 100 10 12 2 (by decide)

/-- C1 counterexample: two goals with probabilities 0 and 100 and targets 1
and 2 have weighted average `200/3`, but the code reports
`round(200/3, 1) = 66.7 ≠ 200/3`. -/
theorem c1_counterexample :
    (calculate_overall_goal_probability
        [⟨0, 1, 0⟩, ⟨100, 2, 0⟩]).overall_probability
      ≠ (0 * 1 + 100 * 2) / ((1 : ℚ) + 2) := by
  norm_num [calculate_overall_goal_probability, round1, roundHalfEven]

/-- C1 amended: for every non-empty goal list with positive total target,
`overall_probability` is the target-amount-weighted average of the per-goal
probabilities rounded half-to-even to one decimal place (Python `round(·, 1)`);
the 1,000,000@90 / 4,000,000@50 example yields exactly 58. -/
theorem c1_weighted_aggregation (events : List GoalEntry) (hne : events ≠ [])
    (hpos : 0 < (events.map (·.target_amount)).sum) :
    (calculate_overall_goal_probability events).overall_probability
      = round1 ((events.map (fun e => e.probability * e.target_amount)).sum
          / (events.map (·.target_amount)).sum) ∧
    (calculate_overall_goal_probability
        [⟨90, 1000000, 0⟩, ⟨50, 4000000, 0⟩]).overall_probability = 58 := by
  refine ⟨?_, by norm_num [calculate_overall_goal_probability, round1, roundHalfEven]⟩
  have hempty : events.isEmpty = false := by
    simpa [List.isEmpty_iff] using hne
  simp only [calculate_overall_goal_probability, hempty, Bool.false_eq_true, if_false,
    if_pos hpos]
  congr 1
  have : (events.map fun e => e.probability * (e.target_amount
      / (events.map (·.target_amount)).sum)).sum
      = (events.map fun e => (e.probability * e.target_amount)
          * ((events.map (·.target_amount)).sum)⁻¹).sum := by
    congr 1
    refine List.map_congr_left fun e _ => ?_
    rw [div_eq_mul_inv, mul_assoc]
  rw [this, List.sum_map_mul_right, div_eq_mul_inv]

theorem c1_weighted_aggregation_witness :
    (calculate_overall_goal_probability
        [⟨90, 1000000, 0⟩, ⟨50, 4000000, 0⟩]).overall_probability = 58 :=
  (c1_weighted_aggregation [⟨90, 1000000, 0⟩, ⟨50, 4000000, 0⟩]
    (by simp) (by norm_num)).2

/-- C7 counterexample: a non-empty goal set whose total target is 0 is reported
with `overall_probability = 0`, not the claimed 100. -/
theorem c7_counterexample :
    (calculate_overall_goal_probability [⟨85, 0, 0⟩]).overall_probability ≠ 100 := by
  norm_num [calculate_overall_goal_probability, round1, roundHalfEven]

/-- C7 amended: `target_amount = 0` never divides by zero — the projection
returns progress 0 and probability 0 for target 0 under any horizon — and the
aggregation returns `overall_probability = 100` (with `total_goals = 0`,
`total_target = 0`) only for the empty goal set; a non-empty goal set with zero
total target yields `overall_probability = 0`. -/
theorem c7_zero_target (funded c r : ℚ) (n : ℤ) (events : List GoalEntry)
    (hne : events ≠ []) (hzero : (events.map (·.target_amount)).sum = 0) :
    (calculate_goal_progress 0 funded c n r).progress_pct = 0 ∧
    (calculate_goal_progress 0 funded c n r).probability = 0 ∧
    (calculate_overall_goal_probability []).overall_probability = 100 ∧
    (calculate_overall_goal_probability []).total_goals = 0 ∧
    (calculate_overall_goal_probability []).total_target = 0 ∧
    (calculate_overall_goal_probability events).overall_probability = 0 := by
  have hempty : events.isEmpty = false := by
    simpa [List.isEmpty_iff] using hne
  have hprog : (calculate_goal_progress 0 funded c n r).progress_pct = 0 ∧
      (calculate_goal_progress 0 funded c n r).probability = 0 := by
    by_cases hn : n ≤ 0 <;> norm_num [calculate_goal_progress, hn]
  refine ⟨hprog.1, hprog.2, rfl, rfl, rfl, ?_⟩
  norm_num [calculate_overall_goal_probability, hempty, hzero, round1, roundHalfEven]

theorem c7_zero_target_witness :
    (calculate_goal_progress 0 5 3 7 2).probability = 0 ∧
    (calculate_overall_goal_probability [⟨85, 0, 0⟩]).overall_probability = 0 :=
  ⟨(c7_zero_target 5 3 2 7 [⟨85, 0, 0⟩] (by simp) (by simp)).2.1,
   (c7_zero_target 5 3 2 7 [⟨85, 0, 0⟩] (by simp) (by simp)).2.2.2.2.2⟩

/-- The severity test of `_make_decision` over the recorded trade-offs agrees
with quantifying the claim's drop formula over all goal targets directly: the
`prob_reduction > 1` recording filter is implied by `> 10`, and goals with
nonpositive targets can never produce a drop above 10 when the price is
positive. -/
theorem trade_off_any_eq (price : ℚ) (hp : 0 < price) (ts : List ℚ) :
    ((trade_off_changes price ts).any fun c => decide (c < -10))
      = (ts.any fun t => decide (10 < min (price / t * 100 * (1 / 2)) 20)) := by
  rw [Bool.eq_iff_iff]
  simp only [List.any_eq_true, trade_off_changes, List.mem_filter, List.mem_map,
    decide_eq_true_eq]
  constructor
  · rintro ⟨c, ⟨⟨t, ⟨htmem, htpos⟩, rfl⟩, hc1⟩, hc10⟩
    exact ⟨t, htmem, by linarith⟩
  · rintro ⟨t, htmem, hm⟩
    by_cases htpos : 0 < t
    · exact ⟨-(min (price / t * 100 * (1 / 2)) 20), ⟨⟨t, ⟨htmem, htpos⟩, rfl⟩,
        by linarith⟩, by linarith⟩
    · exfalso
      rcases lt_or_eq_of_le (not_lt.mp htpos) with htneg | hteq
      · have hdiv : price / t < 0 := div_neg_of_pos_of_neg hp htneg
        have : min (price / t * 100 * (1 / 2)) 20 ≤ price / t * 100 * (1 / 2) :=
          min_le_left _ _
        nlinarith
      · subst hteq
        norm_num [div_zero] at hm

/-- C2 counterexample: at price 182501, lifespan 1 year, resale 0, liquid
assets 10,000,000, monthly expenses 100,000 and no goals, the exact daily
amortized cost is 500 + 1/365 > 500, so the claimed chain says WAIT; the code
quantizes the daily cost to 500.00 before comparing and answers GO. -/
theorem c2_counterexample :
    audit_decision 182501 1 0 10000000 100000 [] = AuditDecision.GO ∧
    audit_spec_literal 182501 1 0 10000000 100000 [] = AuditDecision.WAIT := by
  have h365 : ((Int.toNat 365 : ℕ) : ℚ) = 365 := by simp
  constructor <;>
    norm_num [audit_decision, audit_spec_literal, make_decision, trade_off_changes,
      quantize2HalfUp, RECOGNITION_THRESHOLD, h365]

/-- C2 amended: the audit decision follows the strict first-match chain
(1) price < 30,000 → GO; (2) post-purchase runway < 3 → STOP; (3) runway < 6 →
WAIT; (4) some goal's drop `min(price/target*100*0.5, 20)` exceeding 10 → WAIT;
(5) daily amortized cost > 500 → WAIT; (6) GO — with the daily cost of rule 5
computed as the code does: `(price − resale) / int(lifespan_years*365)` rounded
half-up to two decimals.  The price-20,000 scenario with runway 1.6 months
still short-circuits to GO. -/
theorem c2_audit_chain (price lifespan_years resale_value liquid expenses : ℚ)
    (ts : List ℚ) (he : 0 < expenses) :
    audit_decision price lifespan_years resale_value liquid expenses ts
      = audit_spec_amended price lifespan_years resale_value liquid expenses ts ∧
    audit_decision 20000 5 2000 100000 50000 [] = AuditDecision.GO := by
  refine ⟨?_, by norm_num [audit_decision, make_decision, RECOGNITION_THRESHOLD]⟩
  by_cases h1 : price < 30000
  · simp [audit_decision, audit_spec_amended, make_decision, RECOGNITION_THRESHOLD, h1]
  · have hp : (0 : ℚ) < price := by linarith
    simp only [audit_decision, audit_spec_amended, make_decision, RECOGNITION_THRESHOLD,
      if_neg h1, if_pos he, trade_off_any_eq price hp ts]

theorem c2_audit_chain_witness :
    audit_decision 20000 5 2000 100000 50000 [] = AuditDecision.GO :=
  (c2_audit_chain 20000 5 2000 100000 50000 [] (by norm_num)).2

/-- The `_monte_carlo` path loop produces exactly the `_simulate_for_years`
path loop with every terminal value divided by the inflation factor. -/
theorem mcPaths_eq_map_runPaths (mr mv gr infl : ℚ) (nM : ℕ) (init c0 : ℚ) :
    ∀ (nS : ℕ) (g : Rng),
      mcPaths mr mv gr infl nM init c0 nS g
        = (((runPaths mr mv gr nM init c0 nS g).1).map (fun v => v / infl),
            (runPaths mr mv gr nM init c0 nS g).2)
  | 0, g => by simp [mcPaths, runPaths]
  | nS + 1, g => by
    simp [mcPaths, runPaths, mcPaths_eq_map_runPaths mr mv gr infl nM init c0 nS]

/-- C4 counterexample: `_simulate_for_years` does not seed the generator, so
two successive calls with identical inputs (initial value 1, one path, one
year, zero drift, unit volatility) read different slices of the random stream
and return different terminal-value lists ([1] vs [4096] on the exhibited
stream). -/
theorem c4_counterexample :
    (simulate_for_years 1 1 ⟨0, 1, 0, 1, 30, 0, 0⟩ 1
        ⟨fun i => if i < 12 then 0 else 1, 0⟩).1
      ≠ (simulate_for_years 1 1 ⟨0, 1, 0, 1, 30, 0, 0⟩ 1
          (simulate_for_years 1 1 ⟨0, 1, 0, 1, 30, 0, 0⟩ 1
            ⟨fun i => if i < 12 then 0 else 1, 0⟩).2).1 := by
  have hr : List.range 12 = [0, 1, 2, 3, 4, 5, 6, 7, 8, 9, 10, 11] := rfl
  norm_num [simulate_for_years, runPaths, simPath, simMonth, normalDraw, hr]

/-- C4 amended: seeding is not a configuration option — `_monte_carlo` executes
`np.random.seed(42)` unconditionally, so any two of its calls with identical
inputs return identical terminal-value sequences whatever the ambient generator
state (while `_simulate_for_years`, used per goal, is unseeded and two calls
with identical inputs may differ). -/
theorem c4_monte_carlo_reproducible (seed : ℕ → ℚ) (sqrt12 initial : ℚ)
    (p : SimulationParams) (g g' : Rng) :
    (monte_carlo seed sqrt12 initial p g).1 = (monte_carlo seed sqrt12 initial p g').1 :=
  rfl

/-- C5 counterexample: a `_simulate_for_years` run (initial 102, zero drift,
zero contribution, inflation 2%, one year) returns the nominal terminal value
102, which differs from the deflated value `102 / (1 + 0.02)^1` the claim
requires of every terminal value. -/
theorem c5_counterexample :
    (simulate_for_years 1 102 ⟨0, 1, 2 / 100, 1, 30, 0, 0⟩ 1 ⟨fun _ => 0, 0⟩).1 = [102] ∧
    (102 : ℚ) ≠ 102 / (1 + 2 / 100) ^ (1 : ℕ) := by
  have hr : List.range 12 = [0, 1, 2, 3, 4, 5, 6, 7, 8, 9, 10, 11] := rfl
  constructor
  · norm_num [simulate_for_years, runPaths, simPath, simMonth, normalDraw, hr]
  · norm_num

/-- C5 amended: `_monte_carlo` deflates every terminal value by
`(1 + inflation_rate)^horizon_years` — its output is exactly the nominal
`_simulate_for_years` output (from the reseeded stream, over the same horizon)
mapped through the deflation — whereas `_simulate_for_years` itself, used for
the per-goal success probabilities, returns nominal, undeflated values. -/
theorem c5_deflation (seed : ℕ → ℚ) (sqrt12 initial : ℚ) (p : SimulationParams)
    (g : Rng) :
    (monte_carlo seed sqrt12 initial p g).1
      = ((simulate_for_years sqrt12 initial p p.time_horizon_years ⟨seed, 0⟩).1).map
          (fun v => v / (1 + p.inflation_rate) ^ p.time_horizon_years) := by
  simp [monte_carlo, simulate_for_years, mcPaths_eq_map_runPaths]

/-- Clipped access into a sorted list is monotone in the index. -/
theorem clampedGet_mono (s : List ℚ) (hs : s.Sorted (· ≤ ·)) {i j : ℕ} (hij : i ≤ j) :
    clampedGet s i ≤ clampedGet s j := by
  rcases eq_or_ne s [] with rfl | hne
  · simp [clampedGet]
  · have hlen : 0 < s.length := List.length_pos.mpr hne
    have ha : min i (s.length - 1) < s.length := by omega
    have hb : min j (s.length - 1) < s.length := by omega
    unfold clampedGet
    rw [List.getD_eq_getElem _ _ ha, List.getD_eq_getElem _ _ hb]
    have hab : min i (s.length - 1) ≤ min j (s.length - 1) := by omega
    simpa using hs.rel_get_of_le (a := ⟨_, ha⟩) (b := ⟨_, hb⟩) (Fin.mk_le_mk.mpr hab)

/-- numpy's linear interpolant over a sorted list is monotone in the
fractional index (for nonnegative indices). -/
theorem pInterp_mono (s : List ℚ) (hs : s.Sorted (· ≤ ·)) {h1 h2 : ℚ}
    (h0 : 0 ≤ h1) (h12 : h1 ≤ h2) : pInterp s h1 ≤ pInterp s h2 := by
  have hf1 : (0 : ℤ) ≤ ⌊h1⌋ := Int.floor_nonneg.mpr h0
  have hfrac1a : (0 : ℚ) ≤ h1 - ⌊h1⌋ := by
    have := Int.fract_nonneg h1; rw [Int.fract] at this; linarith
  have hfrac1b : h1 - (⌊h1⌋ : ℚ) < 1 := by
    have := Int.fract_lt_one h1; rw [Int.fract] at this; linarith
  have hfrac2a : (0 : ℚ) ≤ h2 - ⌊h2⌋ := by
    have := Int.fract_nonneg h2; rw [Int.fract] at this; linarith
  rcases eq_or_lt_of_le (Int.floor_le_floor h12) with heq | hlt
  · unfold pInterp
    rw [← heq]
    have hd : clampedGet s ((⌊h1⌋).toNat) ≤ clampedGet s ((⌊h1⌋).toNat + 1) :=
      clampedGet_mono s hs (Nat.le_succ _)
    have key : (h1 - (⌊h1⌋ : ℚ)) * (clampedGet s ((⌊h1⌋).toNat + 1)
          - clampedGet s ((⌊h1⌋).toNat))
        ≤ (h2 - (⌊h1⌋ : ℚ)) * (clampedGet s ((⌊h1⌋).toNat + 1)
          - clampedGet s ((⌊h1⌋).toNat)) :=
      mul_le_mul_of_nonneg_right (by linarith) (by linarith)
    linarith
  · have hi12 : (⌊h1⌋).toNat + 1 ≤ (⌊h2⌋).toNat := by omega
    have hA : pInterp s h1 ≤ clampedGet s ((⌊h1⌋).toNat + 1) := by
      unfold pInterp
      have hd : clampedGet s ((⌊h1⌋).toNat) ≤ clampedGet s ((⌊h1⌋).toNat + 1) :=
        clampedGet_mono s hs (Nat.le_succ _)
      nlinarith
    have hB : clampedGet s ((⌊h1⌋).toNat + 1) ≤ clampedGet s ((⌊h2⌋).toNat) :=
      clampedGet_mono s hs hi12
    have hC : clampedGet s ((⌊h2⌋).toNat) ≤ pInterp s h2 := by
      unfold pInterp
      have hd : clampedGet s ((⌊h2⌋).toNat) ≤ clampedGet s ((⌊h2⌋).toNat + 1) :=
        clampedGet_mono s hs (Nat.le_succ _)
      nlinarith
    linarith

/-- `np.percentile` is monotone in the percentile rank on a non-empty list. -/
theorem npPercentile_mono (l : List ℚ) (hne : l ≠ []) {q1 q2 : ℚ}
    (hq0 : 0 ≤ q1) (hq : q1 ≤ q2) : npPercentile l q1 ≤ npPercentile l q2 := by
  unfold npPercentile
  have hs : (l.mergeSort (fun a b => a ≤ b)).Sorted (· ≤ ·) := List.sorted_mergeSort' l
  have hlen : 0 < (l.mergeSort (fun a b => a ≤ b)).length := by
    rw [List.length_mergeSort]; exact List.length_pos.mpr hne
  have hn1 : (0 : ℚ) ≤ ((l.mergeSort (fun a b => a ≤ b)).length : ℚ) - 1 := by
    have : (1 : ℚ) ≤ ((l.mergeSort (fun a b => a ≤ b)).length : ℚ) := by exact_mod_cast hlen
    linarith
  refine pInterp_mono _ hs ?_ ?_
  · exact div_nonneg (mul_nonneg hn1 hq0) (by norm_num)
  · gcongr

/-- C8: on any non-empty terminal-value distribution, the reported
`percentile_10 ≤ median_outcome ≤ percentile_90`, and the success probability
lies in `[0, 100]`. -/
theorem c8_percentile_order (values : List ℚ) (target : ℚ) (hne : values ≠ []) :
    (evalStats values target).percentile_10 ≤ (evalStats values target).median_outcome ∧
    (evalStats values target).median_outcome ≤ (evalStats values target).percentile_90 ∧
    0 ≤ (evalStats values target).success_probability ∧
    (evalStats values target).success_probability ≤ 100 := by
  refine ⟨npPercentile_mono values hne (by norm_num) (by norm_num),
    npPercentile_mono values hne (by norm_num) (by norm_num), ?_, ?_⟩
  · unfold evalStats successProbability
    positivity
  · unfold evalStats successProbability
    have hlen : (0 : ℚ) < (values.length : ℚ) := by
      exact_mod_cast List.length_pos.mpr hne
    have hcount : ((values.countP fun v => target ≤ v) : ℚ) ≤ (values.length : ℚ) := by
      exact_mod_cast List.countP_le_length _
    rw [div_mul_eq_mul_div, div_le_iff₀ hlen]
    nlinarith

theorem c8_percentile_order_witness :
    (evalStats [3, 1, 2] 2).percentile_10 ≤ (evalStats [3, 1, 2] 2).median_outcome ∧
    (evalStats [3, 1, 2] 2).median_outcome ≤ (evalStats [3, 1, 2] 2).percentile_90 ∧
    0 ≤ (evalStats [3, 1, 2] 2).success_probability ∧
    (evalStats [3, 1, 2] 2).success_probability ≤ 100 :=
  c8_percentile_order [3, 1, 2] 2 (by simp)

/-- With zero simulated months every path returns the initial value unchanged
and the generator is never consulted. -/
theorem runPaths_zero_months (mr mv gr init c0 : ℚ) :
    ∀ (nS : ℕ) (g : Rng), runPaths mr mv gr 0 init c0 nS g = (List.replicate nS init, g)
  | 0, _ => by simp [runPaths]
  | n + 1, g => by
    simp [runPaths, simPath, runPaths_zero_months mr mv gr init c0 n,
      List.replicate_succ]

theorem countP_replicate (n : ℕ) (x : ℚ) (p : ℚ → Bool) :
    (List.replicate n x).countP p = if p x then n else 0 := by
  induction n with
  | zero => simp
  | succ n ih => by_cases h : p x <;> simp [List.replicate_succ, List.countP_cons, ih, h]

/-- C10: a goal strictly less than one year away is simulated over
`int(years_to_goal) = 0` whole years — zero months — so every terminal value is
the initial portfolio value and the success probability is 100 when
`initial ≥ target` and 0 otherwise, for any contribution, return or
volatility. -/
theorem c10_subyear_goal (sqrt12 initial target : ℚ) (p : SimulationParams)
    (years : ℚ) (g : Rng) (h0 : 0 < years) (h1 : years < 1)
    (hn : 0 < p.num_simulations) :
    (simulate_for_years sqrt12 initial p (⌊years⌋).toNat g).1
      = List.replicate p.num_simulations initial ∧
    (evaluate_goal sqrt12 initial target p years g).1.success_probability
      = if initial ≥ target then 100 else 0 := by
  have hfl : ⌊years⌋ = 0 := by
    rw [Int.floor_eq_zero_iff]; exact ⟨le_of_lt h0, h1⟩
  have hsim : simulate_for_years sqrt12 initial p (⌊years⌋).toNat g
      = (List.replicate p.num_simulations initial, g) := by
    rw [hfl]
    simpa [simulate_for_years] using
      runPaths_zero_months (p.expected_return / 12) (p.volatility / sqrt12)
        p.contribution_growth_rate initial p.monthly_contribution p.num_simulations g
  refine ⟨by rw [hsim], ?_⟩
  unfold evaluate_goal
  rw [if_neg (not_le.mpr h0), hsim]
  simp only [evalStats]
  unfold successProbability
  rw [countP_replicate]
  by_cases hc : target ≤ initial
  · have hnq : ((p.num_simulations : ℚ)) ≠ 0 := by
      exact_mod_cast Nat.pos_iff_ne_zero.mp hn
    simp [hc, ge_iff_le, div_self hnq]
  · simp [hc, ge_iff_le]

theorem c10_subyear_goal_witness :
    (simulate_for_years 1 100 ⟨0, 1, 0, 2, 30, 0, 0⟩ (⌊(1 : ℚ) / 2⌋).toNat
        ⟨fun _ => 0, 0⟩).1
      = List.replicate (⟨0, 1, 0, 2, 30, 0, 0⟩ : SimulationParams).num_simulations 100 ∧
    (evaluate_goal 1 100 50 ⟨0, 1, 0, 2, 30, 0, 0⟩ (1 / 2)
        ⟨fun _ => 0, 0⟩).1.success_probability
      = if (100 : ℚ) ≥ 50 then 100 else 0 :=
  c10_subyear_goal 1 100 50 ⟨0, 1, 0, 2, 30, 0, 0⟩ (1 / 2) ⟨fun _ => 0, 0⟩
    (by norm_num) (by norm_num) (by norm_num)

/-- The month loop never changes the random stream, only the position. -/
theorem simMonth_fold_stream (mr mv gr : ℚ) :
    ∀ (months : List ℕ) (st : ℚ × ℚ × Rng),
      ((months.foldl (simMonth mr mv gr) st).2.2).stream = st.2.2.stream
  | [], _ => rfl
  | m :: ms, st => by
    simp only [List.foldl_cons]
    rw [simMonth_fold_stream mr mv gr ms]
    simp [simMonth, normalDraw]

/-- If every monthly growth factor `1 + r` drawn from the stream is nonnegative
and the contribution step-up factor `1 + g` is nonnegative, the month loop is
monotone in the running value and contribution, and its generator state does
not depend on them. -/
theorem simMonth_fold_mono (mr mv gr : ℚ) (hg : 0 ≤ 1 + gr) :
    ∀ (months : List ℕ) (v1 v2 c1 c2 : ℚ) (g : Rng),
      (∀ i, 0 ≤ 1 + (mr + mv * g.stream i)) → v1 ≤ v2 → c1 ≤ c2 →
      (months.foldl (simMonth mr mv gr) (v1, c1, g)).1
          ≤ (months.foldl (simMonth mr mv gr) (v2, c2, g)).1 ∧
        (months.foldl (simMonth mr mv gr) (v1, c1, g)).2.1
          ≤ (months.foldl (simMonth mr mv gr) (v2, c2, g)).2.1 ∧
        (months.foldl (simMonth mr mv gr) (v1, c1, g)).2.2
          = (months.foldl (simMonth mr mv gr) (v2, c2, g)).2.2
  | [], _, _, _, _, _, _, hv, hc => ⟨hv, hc, rfl⟩
  | m :: ms, v1, v2, c1, c2, g, hr, hv, hc => by
    simp only [List.foldl_cons]
    have hz := hr g.pos
    have hv' : v1 * (1 + (mr + mv * g.stream g.pos)) + c1
        ≤ v2 * (1 + (mr + mv * g.stream g.pos)) + c2 :=
      add_le_add (mul_le_mul_of_nonneg_right hv hz) hc
    have hc' : (if 0 < m ∧ m % 12 = 0 then c1 * (1 + gr) else c1)
        ≤ (if 0 < m ∧ m % 12 = 0 then c2 * (1 + gr) else c2) := by
      by_cases hm : 0 < m ∧ m % 12 = 0
      · simpa [hm] using mul_le_mul_of_nonneg_right hc hg
      · simpa [hm] using hc
    exact simMonth_fold_mono mr mv gr hg ms _ _ _ _ ⟨g.stream, g.pos + 1⟩ hr hv' hc'

/-- Path-by-path monotonicity of `_simulate_for_years` in the monthly
contribution, with the final generator state unaffected. -/
theorem runPaths_mono (mr mv gr : ℚ) (hg : 0 ≤ 1 + gr) (nM : ℕ) (init : ℚ)
    {c1 c2 : ℚ} (hc : c1 ≤ c2) :
    ∀ (nS : ℕ) (g : Rng), (∀ i, 0 ≤ 1 + (mr + mv * g.stream i)) →
      List.Forall₂ (· ≤ ·) (runPaths mr mv gr nM init c1 nS g).1
          (runPaths mr mv gr nM init c2 nS g).1 ∧
        (runPaths mr mv gr nM init c1 nS g).2
          = (runPaths mr mv gr nM init c2 nS g).2
  | 0, _, _ => ⟨List.Forall₂.nil, rfl⟩
  | nS + 1, g, hr => by
    have hfold := simMonth_fold_mono mr mv gr hg (List.range nM) init init c1 c2 g hr
      le_rfl hc
    have hr' : ∀ i, 0 ≤ 1 + (mr + mv *
        (((List.range nM).foldl (simMonth mr mv gr) (init, c1, g)).2.2).stream i) := by
      intro i
      rw [simMonth_fold_stream]
      exact hr i
    have hrec := runPaths_mono mr mv gr hg nM init hc nS
      (((List.range nM).foldl (simMonth mr mv gr) (init, c1, g)).2.2) hr'
    simp only [runPaths, simPath]
    rw [← hfold.2.2]
    exact ⟨List.Forall₂.cons hfold.1 hrec.1, by rw [hrec.2]⟩

theorem countP_mono_forall2 (target : ℚ) {l1 l2 : List ℚ}
    (h : List.Forall₂ (· ≤ ·) l1 l2) :
    (l1.countP fun v => target ≤ v) ≤ l2.countP fun v => target ≤ v := by
  induction h with
  | nil => exact le_rfl
  | @cons x y l1' l2' hxy _ ih =>
    simp only [List.countP_cons]
    by_cases hx : target ≤ x
    · have hy : target ≤ y := le_trans hx hxy
      simp [hx, hy]
      omega
    · by_cases hy : target ≤ y <;> simp [hx, hy] <;> omega

/-- The success probability is monotone under a pointwise increase of the
terminal values. -/
theorem successProbability_mono (target : ℚ) {l1 l2 : List ℚ}
    (h : List.Forall₂ (· ≤ ·) l1 l2) :
    successProbability l1 target ≤ successProbability l2 target := by
  unfold successProbability
  rw [h.length_eq]
  rcases Nat.eq_zero_or_pos l2.length with h0 | hpos
  · simp [h0]
  · have hlen : (0 : ℚ) < (l2.length : ℚ) := by exact_mod_cast hpos
    have hcount : ((l1.countP fun v => target ≤ v) : ℚ)
        ≤ ((l2.countP fun v => target ≤ v) : ℚ) := by
      exact_mod_cast countP_mono_forall2 target h
    gcongr

/-- C9 counterexample: with the exhibited draws one month's growth factor is
`1 + (−3) < 0`, and raising the monthly contribution from 0 to 100 drops the
path terminal value from 400 to −1700 across target 300, so the success
probability falls from 100 to 0. -/
theorem c9_counterexample :
    (0 : ℚ) < 100 ∧
    successProbability (simulate_for_years 1 100 ⟨0, 1, 0, 1, 30, 100, 0⟩ 1
        ⟨fun i => if i = 0 ∨ i = 11 then -3 else 0, 0⟩).1 300
      < successProbability (simulate_for_years 1 100 ⟨0, 1, 0, 1, 30, 0, 0⟩ 1
        ⟨fun i => if i = 0 ∨ i = 11 then -3 else 0, 0⟩).1 300 := by
  have hr : List.range 12 = [0, 1, 2, 3, 4, 5, 6, 7, 8, 9, 10, 11] := rfl
  constructor
  · norm_num
  · norm_num [simulate_for_years, runPaths, simPath, simMonth, normalDraw, hr,
      successProbability]

/-- C9 amended: increasing `monthly_contribution` with everything else fixed
never decreases the deterministic `projected_amount`; the simulated
`success_probability` (fixed draws) never decreases provided every drawn
monthly growth factor `1 + r` and the contribution step-up factor
`1 + contribution_growth_rate` are nonnegative — a draw with `1 + r < 0`
(possible under unbounded normal draws) can make it strictly decrease. -/
theorem c9_contribution_monotone :
    (∀ (target funded r : ℚ) (n : ℤ) (c1 c2 : ℚ), c1 ≤ c2 →
      (calculate_goal_progress target funded c1 n r).projected_amount
        ≤ (calculate_goal_progress target funded c2 n r).projected_amount) ∧
    (∀ (sqrt12 initial target : ℚ) (p : SimulationParams) (years : ℕ) (g : Rng)
      (c1 c2 : ℚ), c1 ≤ c2 → 0 ≤ 1 + p.contribution_growth_rate →
      (∀ i, 0 ≤ 1 + (p.expected_return / 12 + p.volatility / sqrt12 * g.stream i)) →
      successProbability (simulate_for_years sqrt12 initial
          { p with monthly_contribution := c1 } years g).1 target
        ≤ successProbability (simulate_for_years sqrt12 initial
            { p with monthly_contribution := c2 } years g).1 target) := by
  constructor
  · intro target funded r n c1 c2 hc
    by_cases hn : n ≤ 0
    · simp [calculate_goal_progress, hn]
    · simp only [calculate_goal_progress, if_neg hn]
      by_cases hr : 0 < r / 100 / 12
      · have hpow : (1 : ℚ) ≤ (1 + r / 100 / 12) ^ n.toNat :=
          one_le_pow₀ (by linarith)
        have hcoef : (0 : ℚ) ≤ ((1 + r / 100 / 12) ^ n.toNat - 1) / (r / 100 / 12) :=
          div_nonneg (by linarith) (le_of_lt hr)
        simp only [if_pos hr]
        exact add_le_add_left (mul_le_mul_of_nonneg_right hc hcoef) _
      · simp only [if_neg hr]
        exact add_le_add_left (mul_le_mul_of_nonneg_right hc (Nat.cast_nonneg _)) _
  · intro sqrt12 initial target p years g c1 c2 hc hg hr
    have h := runPaths_mono (p.expected_return / 12) (p.volatility / sqrt12)
      p.contribution_growth_rate hg (years * 12) initial hc p.num_simulations g hr
    simpa [simulate_for_years] using successProbability_mono target h.1

theorem c9_contribution_monotone_witness :
    (calculate_goal_progress 1000 0 10 12 5).projected_amount
      ≤ (calculate_goal_progress 1000 0 20 12 5).projected_amount ∧
    successProbability (simulate_for_years 1 100
        { (⟨0, 1, 0, 1, 30, 10, 0⟩ : SimulationParams) with monthly_contribution := 10 }
        1 ⟨fun _ => 0, 0⟩).1 50
      ≤ successProbability (simulate_for_years 1 100
          { (⟨0, 1, 0, 1, 30, 10, 0⟩ : SimulationParams) with monthly_contribution := 20 }
          1 ⟨fun _ => 0, 0⟩).1 50 :=
  ⟨c9_contribution_monotone.1 1000 0 5 12 10 20 (by norm_num),
   c9_contribution_monotone.2 1 100 50 ⟨0, 1, 0, 1, 30, 10, 0⟩ 1 ⟨fun _ => 0, 0⟩ 10 20
     (by norm_num) (by norm_num) (fun i => by norm_num)⟩

end AssetMgmt
